import Mathlib

/-!
# Verification of the cookiecutter hook scripts of `multiagent-boilerplate`

Shallow embedding of the two generation hooks (`hooks/pre_gen_project.py`,
`hooks/post_gen_project.py`) and of the agent route stubs
(`server/api/agent_routes.py`), with theorems checking the specification's
claims against them.

Conventions of the embedding:
* Host-system effects (path lookup, subprocess exit codes, the filesystem,
  the OS name, the current working directory, the home directory) are fields
  of explicit environment records, so that every hook function is a pure
  function of the environment.
* A Python exception that the script does not catch is an `Except.error`;
  console output is collected in lists.
-/

namespace MultiagentBoilerplate

/-! ## `hooks/pre_gen_project.py` -/

/-- One-or-more ASCII decimal digits, then `'.'`, then one-or-more ASCII
decimal digits — the language of the regular expression `\d+\.\d+` anchored at
both ends.  (Python's `\d` additionally matches non-ASCII Unicode decimal
digits; the embedding restricts attention to ASCII digit characters.) -/
def twoPartCore (l : List Char) : Bool :=
  let a := l.takeWhile Char.isDigit
  let r := l.drop a.length
  (!a.isEmpty) &&
    (match r with
     | '.' :: rest => (!rest.isEmpty) && rest.all Char.isDigit
     | _ => false)

/-- `re.match(r"^\d+\.\d+$", s)` is not `None`.  Python's `$` matches at the
end of the string or just before a newline at the end of the string, hence the
second disjunct. -/
def PY_VER_RE_match (s : String) : Bool :=
  twoPartCore s.data ||
    (s.data.getLast? == some '\n' && twoPartCore s.data.dropLast)

/-- The exact `ValueError` message raised by `pre_gen_project.py`. -/
def preGenErrorMsg (python_version : String) : String :=
  "python_version must be like '3.12', got: " ++ python_version

/-- The exact warning `pre_gen_project.py` writes to `stderr` when the
running interpreter's version differs from the requested one. -/
def preGenWarning (cur_ver python_version : String) : String :=
  "[cookiecutter] WARNING: Your current Python is " ++ cur_ver ++
    ", but cookiecutter.python_version is " ++ python_version ++
    ".\nWe'll still generate the project; the post-gen hook can create a venv.\n"

/-- The module body of `hooks/pre_gen_project.py`.  `python_version` is the
template-substituted value of `cookiecutter.python_version`; `cur_ver` is
`f"{sys.version_info.major}.{sys.version_info.minor}"` of the running
interpreter.  An `Except.error (msg, ws)` is the uncaught `ValueError` with
message `msg`, where `ws` lists the writes to `stderr` performed before the
raise (the check is the first statement after the assignment, so `ws = []`);
`Except.ok ws` is a normal, successful termination with stderr writes
`ws`. -/
def pre_gen_project (python_version cur_ver : String) :
    Except (String × List String) (List String) :=
  if PY_VER_RE_match python_version then
    if cur_ver ≠ python_version then
      .ok [preGenWarning cur_ver python_version]
    else
      .ok []
  else
    .error (preGenErrorMsg python_version, [])

/-! ## `hooks/post_gen_project.py` — filesystem model and `initialize_project` -/

/-- A model of the filesystem visible to the hook: which directories exist and
which files exist with which contents. -/
@[ext]
structure FS where
  dirs : String → Bool
  files : String → Option String

/-- Split a path into its `/`-separated segments (accumulator holds the
current segment reversed). -/
def splitSegsAux (acc : List Char) : List Char → List String
  | [] => [⟨acc.reverse⟩]
  | c :: rest =>
    if c = '/' then ⟨acc.reverse⟩ :: splitSegsAux [] rest
    else splitSegsAux (c :: acc) rest

/-- Split a path into its `/`-separated segments. -/
def splitSegs (p : String) : List String := splitSegsAux [] p.data

/-- Join path segments with `/`. -/
def joinSegs : List String → String
  | [] => ""
  | [s] => s
  | s :: rest => s ++ "/" ++ joinSegs rest

/-- The directory `p` together with all of its ancestors: exactly the
directories `os.makedirs(p, exist_ok=True)` ensures exist. -/
def pathPrefixes (p : String) : List String :=
  let segs := splitSegs p
  (List.range segs.length).map fun i => joinSegs (segs.take (i + 1))

/-- The content `initialize_project` writes into every `.gitkeep` file. -/
def gitkeepContent : String := "# This file ensures the directory is tracked by git\n"

/-- `os.path.join(dir_path, ".gitkeep")`. -/
def gitkeepPath (d : String) : String := d ++ "/.gitkeep"

/-- The fixed list `empty_dirs` of `initialize_project`. -/
def empty_dirs : List String :=
  ["../backend/data/external",
   "../backend/data/interim",
   "../backend/data/processed",
   "../backend/artifacts",
   "../backend/notebooks"]

/-- One iteration of the loop body of `initialize_project`:
`os.makedirs(os.path.dirname(gitkeep_path), exist_ok=True)` (note
`os.path.dirname(gitkeep_path) = dir_path`, and `makedirs` also creates the
missing ancestors) followed by writing the `.gitkeep` file. -/
def makedirsAndWriteGitkeep (fs : FS) (dir_path : String) : FS where
  dirs := fun q => (pathPrefixes dir_path).contains q || fs.dirs q
  files := fun q =>
    if q = gitkeepPath dir_path then some gitkeepContent else fs.files q

/-- The filesystem effect of `initialize_project` (its `print` calls are kept
separately, as the event `Ev.initOut` below). -/
def initialize_project (fs : FS) : FS :=
  empty_dirs.foldl makedirsAndWriteGitkeep fs

/-! ## `hooks/post_gen_project.py` — interpreter discovery, venv, main flow -/

/-- The host environment the post-gen hook runs in.  `which` is
`shutil.which`; `reportedVersion exe` is the stripped stdout of
`subprocess.check_output([exe, "-c", "import sys; print(f'...')"])`, or
`none` when that call (or decoding) raises; `sysExecutable` is
`sys.executable`; `venvExit py path` is the exit code of
`subprocess` running `[py, "-m", "venv", path]`; `osName` is `os.name`;
`homeDir` and `cwd` drive `Path.expanduser` and `Path.resolve`. -/
structure PostEnv where
  which : String → Option String
  reportedVersion : String → Option String
  sysExecutable : String
  venvExit : String → String → Nat
  osName : String
  homeDir : String
  cwd : String

/-- Python's `str.lower()`, character by character.  (Lean's `Char.toLower`
lowers the ASCII range; Python's `str.lower` is additionally Unicode-aware,
which does not matter for the `"y"`/`"n"` flag it is applied to.) -/
def strLower (s : String) : String := ⟨s.data.map Char.toLower⟩

/-- The candidate list of `pick_python_interpreter`:
`[f"python{target_py}", "python3", "python"]`. -/
def interpreterCandidates (target_py : String) : List String :=
  ["python" ++ target_py, "python3", "python"]

/-- The loop of `pick_python_interpreter` over the remaining candidates: skip
a candidate not on the search path, skip a candidate whose version probe
raises (`except Exception: pass`) or reports a version different from
`target_py`, return the first hit; after the loop, fall back to
`sys.executable`. -/
def pickFrom (env : PostEnv) (target_py : String) : List String → String
  | [] => env.sysExecutable
  | cand :: rest =>
    match env.which cand with
    | none => pickFrom env target_py rest
    | some exe =>
      match env.reportedVersion exe with
      | some ver => if ver = target_py then exe else pickFrom env target_py rest
      | none => pickFrom env target_py rest

/-- `pick_python_interpreter(target_py)`. -/
def pick_python_interpreter (env : PostEnv) (target_py : String) : String :=
  pickFrom env target_py (interpreterCandidates target_py)

/-- Spec-side description of interpreter discovery, written from the spec's
words: the first candidate that is found on the search path and whose
self-reported version equals the requested one. -/
def firstMatchingInterpreter (env : PostEnv) (target_py : String) :
    Option String :=
  (interpreterCandidates target_py).findSome? fun cand =>
    (env.which cand).bind fun exe =>
      if env.reportedVersion exe = some target_py then some exe else none

/-- `Path(venv_name).expanduser()`: a leading `~` is replaced by the home
directory.  (The `~user` form looks up another user's home directory and is
not modelled.) -/
def expandUser (homeDir p : String) : String :=
  if p = "~" then homeDir
  else if p.startsWith "~/" then homeDir ++ p.drop 1
  else p

/-- `.resolve()`: make the path absolute against the current working
directory.  (Normalisation of `.`/`..` segments and symlinks is not
modelled.) -/
def resolvePath (cwd p : String) : String :=
  if p.startsWith "/" then p else cwd ++ "/" ++ p

/-- The target path of `create_venv`:
`Path(venv_name).expanduser().resolve()`. -/
def venvTarget (env : PostEnv) (venv_name : String) : String :=
  resolvePath env.cwd (expandUser env.homeDir venv_name)

/-- Console events of the post-gen hook.  Each constructor is one
`print`-block of the script; `render` below gives the exact printed text. -/
inductive Ev
  /-- The prints of `initialize_project` (which include `os.getcwd()`). -/
  | initOut (cwd : String)
  /-- `"[cookiecutter] WARNING: Could not find a Python interpreter; skipping venv creation."` -/
  | couldNotFind
  /-- The `print` in the `except` branch of `create_venv`. -/
  | venvError (python_exe : String) (code : Nat)
  /-- `"[cookiecutter] WARNING: venv creation failed; please set it up manually."` -/
  | venvFailedWarn
  /-- The prints of `print_activation_help(venv_path)`. -/
  | activationHelp (osName venvPath : String)
  /-- The welcome banner of `show_welcome_banner()`. -/
  | banner
  deriving DecidableEq

/-- A run of 50 `═` characters: the horizontal rule of the banner box. -/
def bannerRule : String := String.mk (List.replicate 50 '═')

/-- A run of `n` spaces. -/
def spacesRun (n : Nat) : String := String.mk (List.replicate n ' ')

/-- The banner string of `show_welcome_banner`, reconstructed run by run
(rules of 50 `═`, padded interior lines, one stray trailing blank on the
empty line — all exactly as in the triple-quoted literal). -/
def bannerText : String :=
  "\n    ╔" ++ bannerRule ++ "╗\n    ║" ++ spacesRun 18 ++ "🚀 AGENTFORGE" ++
    spacesRun 19 ++ "║\n    ║" ++ spacesRun 11 ++ "Multi-Agent System Template" ++
    spacesRun 12 ++ "║\n    ║" ++ spacesRun 50 ++ "║ \n    ║" ++ spacesRun 11 ++
    "Crafted with ❤️ by goldirana" ++ spacesRun 11 ++ "║\n    ╚" ++ bannerRule ++
    "╝\n    "

/-- The path separator `pathlib` prints on the host OS: `\` on Windows
(`os.name == "nt"`), `/` elsewhere. -/
def pathSep (osName : String) : String :=
  if osName = "nt" then "\\" else "/"

/-- The subdirectory of the venv holding executables: `Scripts` on Windows,
`bin` elsewhere — the branch of `print_activation_help`. -/
def venvBinDir (osName : String) : String :=
  if osName = "nt" then "Scripts" else "bin"

/-- The exact lines each event prints to standard output. -/
def render : Ev → List String
  | .initOut cwd =>
    ["🚀 Initializing your multi-agent system project...",
     "✅ Project structure created successfully!",
     "📁 Your project is located at: " ++ cwd,
     "\nNext steps:",
     "1. pip install -r requirements.txt",
     "2. Configure system_config.yaml",
     "3. Start developing your multi-agent system!"]
  | .couldNotFind =>
    ["[cookiecutter] WARNING: Could not find a Python interpreter; skipping venv creation."]
  | .venvError python_exe code =>
    ["[cookiecutter] ERROR: Failed to create venv with " ++ python_exe ++
      ": Command returned non-zero exit status " ++ toString code ++ "."]
  | .venvFailedWarn =>
    ["[cookiecutter] WARNING: venv creation failed; please set it up manually."]
  | .activationHelp osName venvPath =>
    let sep := pathSep osName
    let sub := venvBinDir osName
    let activate := venvPath ++ sep ++ sub ++ sep ++ "activate"
    let pip := venvPath ++ sep ++ sub ++ sep ++ "pip"
    let python := venvPath ++ sep ++ sub ++ sep ++ "python"
    ["\n[cookiecutter] Virtual environment created.",
     if osName = "nt" then "  " ++ activate
     else "Activate:\n  source " ++ activate,
     "Pip:      " ++ pip,
     "Python:   " ++ python ++ "\n"]
  | .banner => [bannerText]

/-- `create_venv(python_exe, venv_name)`: returns the created path on exit
code `0`; on `CalledProcessError` prints the error and returns `None`
(modelled as `none`).  The pair's second component is the console output. -/
def create_venv (env : PostEnv) (python_exe venv_name : String) :
    Option String × List Ev :=
  let venv_path := venvTarget env venv_name
  let code := env.venvExit python_exe venv_path
  if code = 0 then (some venv_path, [])
  else (none, [.venvError python_exe code])

/-- The template context substituted into the script's `ctx` dictionary. -/
structure Ctx where
  python_version : String
  create_virtualenv : String
  venv_name : String
  project_slug : String

/-- The `if __name__ == "__main__":` block of `post_gen_project.py`.
Returns the console events in order together with the created venv path (if
any).  The `sys.exit(0)` branch ends the run, so nothing follows its
warning. -/
def postGenMain (env : PostEnv) (ctx : Ctx) : List Ev × Option String :=
  let init : Ev := .initOut env.cwd
  if strLower ctx.create_virtualenv = "y" then
    let py := pick_python_interpreter env ctx.python_version
    if py = "" then ([init, .couldNotFind], none)
    else
      match create_venv env py ctx.venv_name with
      | (some p, evs) => ([init] ++ evs ++ [.activationHelp env.osName p, .banner], some p)
      | (none, evs) => ([init] ++ evs ++ [.venvFailedWarn, .banner], none)
  else ([init, .banner], none)

/-! ## `hooks/post_gen_project.py` — `export_env_variables` -/

/-- The state of the hook process that `export_env_variables` could touch:
its environment-variable mapping (`os.environ`). -/
structure ProcState where
  environ : List (String × String)
  deriving DecidableEq

/-- `export_env_variables()`.  When `.env` exists it runs
`subprocess.run("set -a && source .env && set +a", shell=True, check=True,
executable='/bin/bash')`: a *child* bash process sources the file, so the
key=value pairs `dotenvLines` of the file land in the child's environment
only and the hook's own `ProcState` is returned unchanged; `check=True`
raises `CalledProcessError` if the child exits non-zero.  When `.env` does
not exist it only prints a notice. -/
def export_env_variables (dotenvExists : Bool)
    (dotenvLines : List (String × String)) (childExit : Nat)
    (st : ProcState) : Except String (ProcState × List String) :=
  if dotenvExists then
    let _ := dotenvLines
    if childExit = 0 then
      .ok (st, ["🔄 Exporting environment variables from .env file...",
                "✅ Environment variables exported successfully!"])
    else
      .error "subprocess.CalledProcessError"
  else
    .ok (st, ["⚠️ .env file not found. Please create one to set environment variables."])

/-! ## `server/api/agent_routes.py` -/

/-- The hardcoded payload of the `list_agents` route. -/
def list_agents : List String := ["chat_agent", "task_agent", "research_agent"]

/-- The JSON object the `start_agent` route returns. -/
structure AgentResponse where
  message : String
  status : String
  deriving DecidableEq

/-- The `start_agent(agent_name)` route handler. -/
def start_agent (agent_name : String) : AgentResponse :=
  { message := "Agent " ++ agent_name ++ " started", status := "success" }

/-! ## Concrete environments used to exercise the theorems -/

/-- A host on which no interpreter candidate is found on the search path and
`python -m venv` fails with exit code 1. -/
def envNoPython : PostEnv where
  which := fun _ => none
  reportedVersion := fun _ => none
  sysExecutable := "/usr/bin/python3"
  venvExit := fun _ _ => 1
  osName := "posix"
  homeDir := "/root"
  cwd := "/work/myproject"

/-- Like `envNoPython`, but `python -m venv` succeeds. -/
def envVenvOk : PostEnv :=
  { envNoPython with venvExit := fun _ _ => 0 }

/-- A template context requesting a virtual environment. -/
def ctxY : Ctx where
  python_version := "3.12"
  create_virtualenv := "y"
  venv_name := ".venv"
  project_slug := "myproject"

/-- A filesystem with no directories and no files. -/
def emptyFS : FS := ⟨fun _ => false, fun _ => none⟩

end MultiagentBoilerplate

namespace MultiagentBoilerplate

/-! ## Helper lemmas -/

/-- The loop of `pick_python_interpreter` computes the first candidate that
is on the search path and reports the requested version, with
`sys.executable` as the fallback. -/
theorem pickFrom_eq_findSome (env : PostEnv) (t : String) (l : List String) :
    pickFrom env t l =
      (l.findSome? fun cand =>
        (env.which cand).bind fun exe =>
          if env.reportedVersion exe = some t then some exe else none).getD
        env.sysExecutable := by
  induction l with
  | nil => rfl
  | cons c rest ih =>
    rw [List.findSome?_cons]
    cases hw : env.which c with
    | none => simpa [pickFrom, hw] using ih
    | some exe =>
      cases hv : env.reportedVersion exe with
      | none => simpa [pickFrom, hw, hv] using ih
      | some v =>
        by_cases hvt : v = t
        · subst hvt
          simp [pickFrom, hw, hv]
        · simpa [pickFrom, hw, hv, hvt] using ih

/-- Every value the loop of `pick_python_interpreter` can return is either
the fallback `sys.executable` or a path returned by `shutil.which`. -/
theorem pickFrom_fallback_or_which (env : PostEnv) (t : String) (l : List String) :
    pickFrom env t l = env.sysExecutable ∨
      ∃ c exe, env.which c = some exe ∧ pickFrom env t l = exe := by
  induction l with
  | nil => exact Or.inl rfl
  | cons c rest ih =>
    cases hw : env.which c with
    | none => simpa [pickFrom, hw] using ih
    | some exe =>
      cases hv : env.reportedVersion exe with
      | none => simpa [pickFrom, hw, hv] using ih
      | some v =>
        by_cases hvt : v = t
        · exact Or.inr ⟨c, exe, hw, by simp [pickFrom, hw, hv, hvt]⟩
        · simpa [pickFrom, hw, hv, hvt] using ih

/-- When `sys.executable` and every `shutil.which` result are non-empty
strings, `pick_python_interpreter` returns a non-empty (truthy) string. -/
theorem pick_python_interpreter_ne_empty (env : PostEnv)
    (hsys : env.sysExecutable ≠ "")
    (hwhich : ∀ c exe, env.which c = some exe → exe ≠ "")
    (t : String) : pick_python_interpreter env t ≠ "" := by
  rcases pickFrom_fallback_or_which env t (interpreterCandidates t) with h | ⟨c, exe, hc, h⟩
  · rw [pick_python_interpreter, h]; exact hsys
  · rw [pick_python_interpreter, h]; exact hwhich c exe hc

/-- File contents after the provisioning loop: every `.gitkeep` path of the
list holds the placeholder content, everything else is untouched. -/
theorem foldl_gitkeep_files (l : List String) (fs : FS) (q : String) :
    (l.foldl makedirsAndWriteGitkeep fs).files q =
      if q ∈ l.map gitkeepPath then some gitkeepContent else fs.files q := by
  induction l generalizing fs with
  | nil => simp
  | cons d rest ih =>
    simp only [List.foldl_cons, List.map_cons, List.mem_cons]
    rw [ih]
    by_cases h1 : q ∈ rest.map gitkeepPath
    · simp [h1]
    · by_cases h2 : q = gitkeepPath d
      · simp [h1, h2, makedirsAndWriteGitkeep]
      · simp [h1, h2, makedirsAndWriteGitkeep]

/-- Directories after the provisioning loop: every directory of the list and
its ancestors exist, everything else is untouched. -/
theorem foldl_gitkeep_dirs (l : List String) (fs : FS) (q : String) :
    (l.foldl makedirsAndWriteGitkeep fs).dirs q =
      ((l.any fun d => (pathPrefixes d).contains q) || fs.dirs q) := by
  induction l generalizing fs with
  | nil => simp
  | cons d rest ih =>
    simp only [List.foldl_cons, List.any_cons]
    rw [ih]
    simp only [makedirsAndWriteGitkeep]
    cases (pathPrefixes d).contains q <;>
      cases rest.any (fun d => (pathPrefixes d).contains q) <;> simp

/-- Directory provisioning is idempotent on the filesystem model. -/
theorem initialize_project_idem (fs : FS) :
    initialize_project (initialize_project fs) = initialize_project fs := by
  unfold initialize_project
  refine FS.ext ?_ ?_
  · funext q
    rw [foldl_gitkeep_dirs, foldl_gitkeep_dirs]
    cases empty_dirs.any (fun d => (pathPrefixes d).contains q) <;> simp
  · funext q
    rw [foldl_gitkeep_files, foldl_gitkeep_files]
    by_cases h : q ∈ empty_dirs.map gitkeepPath <;> simp [h]

/-- The four possible runs of the `__main__` block of
`post_gen_project.py`: no venv requested; interpreter lookup returned a
falsy string (the `sys.exit(0)` branch); venv creation succeeded; venv
creation failed. -/
theorem postGenMain_cases (env : PostEnv) (ctx : Ctx) :
    (¬strLower ctx.create_virtualenv = "y" ∧
      postGenMain env ctx = ([.initOut env.cwd, .banner], none)) ∨
    (strLower ctx.create_virtualenv = "y" ∧
      pick_python_interpreter env ctx.python_version = "" ∧
      postGenMain env ctx = ([.initOut env.cwd, .couldNotFind], none)) ∨
    (strLower ctx.create_virtualenv = "y" ∧
      pick_python_interpreter env ctx.python_version ≠ "" ∧
      env.venvExit (pick_python_interpreter env ctx.python_version)
        (venvTarget env ctx.venv_name) = 0 ∧
      postGenMain env ctx =
        ([.initOut env.cwd,
          .activationHelp env.osName (venvTarget env ctx.venv_name), .banner],
         some (venvTarget env ctx.venv_name))) ∨
    (strLower ctx.create_virtualenv = "y" ∧
      pick_python_interpreter env ctx.python_version ≠ "" ∧
      env.venvExit (pick_python_interpreter env ctx.python_version)
        (venvTarget env ctx.venv_name) ≠ 0 ∧
      postGenMain env ctx =
        ([.initOut env.cwd,
          .venvError (pick_python_interpreter env ctx.python_version)
            (env.venvExit (pick_python_interpreter env ctx.python_version)
              (venvTarget env ctx.venv_name)),
          .venvFailedWarn, .banner], none)) := by
  by_cases hflag : strLower ctx.create_virtualenv = "y"
  · by_cases hpy : pick_python_interpreter env ctx.python_version = ""
    · exact Or.inr (Or.inl ⟨hflag, hpy, by simp [postGenMain, hflag, hpy]⟩)
    · by_cases hcode : env.venvExit (pick_python_interpreter env ctx.python_version)
        (venvTarget env ctx.venv_name) = 0
      · refine Or.inr (Or.inr (Or.inl ⟨hflag, hpy, hcode, ?_⟩))
        simp [postGenMain, hflag, hpy, create_venv, hcode]
      · refine Or.inr (Or.inr (Or.inr ⟨hflag, hpy, hcode, ?_⟩))
        simp [postGenMain, hflag, hpy, create_venv, hcode]
  · exact Or.inl ⟨hflag, by simp [postGenMain, hflag]⟩

end MultiagentBoilerplate

namespace MultiagentBoilerplate

/-! ## Claims -/

/-- C1: the Pre-check Validator accepts a version string (terminates without
raising) exactly when the string matches `^\d+\.\d+$` under Python's `re`
semantics; on every non-matching string — in particular `""`, `"3"`,
`"3.x"`, `"3.12.1"` — it raises the `ValueError` before any other action
(the error carries an empty list of prior stderr writes), aborting
generation. -/
theorem C1_pre_gen_accepts_iff_pattern (python_version cur_ver : String) :
    ((pre_gen_project python_version cur_ver).isOk = PY_VER_RE_match python_version) ∧
    (PY_VER_RE_match python_version = false →
      pre_gen_project python_version cur_ver =
        .error (preGenErrorMsg python_version, [])) ∧
    PY_VER_RE_match "" = false ∧
    PY_VER_RE_match "3" = false ∧
    PY_VER_RE_match "3.x" = false ∧
    PY_VER_RE_match "3.12.1" = false := by
  refine ⟨?_, ?_, by decide, by decide, by decide, by decide⟩
  · by_cases h : PY_VER_RE_match python_version <;>
      by_cases h2 : cur_ver = python_version <;>
      simp [pre_gen_project, h, h2, Except.isOk, Except.toBool]
  · intro h
    simp [pre_gen_project, h]

/-- C1, exercised: `"3.x"` is rejected with the exact `ValueError` and no
prior stderr write. -/
theorem C1_pre_gen_accepts_iff_pattern_witness :
    pre_gen_project "3.x" "3.12" = .error (preGenErrorMsg "3.x", []) :=
  (C1_pre_gen_accepts_iff_pattern "3.x" "3.12").2.1 (by decide)

/-- C2: interpreter discovery probes `python<target>`, `python3`, `python`
in that order, returns the first candidate found on the search path whose
self-reported version equals the requested string, and otherwise returns
`sys.executable`; it is a total function (never raises). -/
theorem C2_pick_python_interpreter_first_match_or_fallback
    (env : PostEnv) (target_py : String) :
    (pick_python_interpreter env target_py =
      (firstMatchingInterpreter env target_py).getD env.sysExecutable) ∧
    (firstMatchingInterpreter env target_py = none →
      pick_python_interpreter env target_py = env.sysExecutable) := by
  refine ⟨pickFrom_eq_findSome env target_py (interpreterCandidates target_py), ?_⟩
  intro h
  rw [pick_python_interpreter,
    pickFrom_eq_findSome env target_py (interpreterCandidates target_py)]
  rw [firstMatchingInterpreter] at h
  simp [h]

/-- C2, exercised: on a host with no interpreter on the search path,
discovery returns `sys.executable`. -/
theorem C2_pick_python_interpreter_first_match_or_fallback_witness :
    pick_python_interpreter envNoPython "3.12" = envNoPython.sysExecutable :=
  (C2_pick_python_interpreter_first_match_or_fallback envNoPython "3.12").2 rfl

/-- C3: after directory provisioning, every path of the fixed list exists
and its `.gitkeep` file holds exactly the placeholder line followed by a
newline; provisioning is idempotent on the filesystem. -/
theorem C3_provisioning_creates_and_is_idempotent (fs : FS) :
    (∀ d ∈ empty_dirs,
      (initialize_project fs).dirs d = true ∧
      (initialize_project fs).files (gitkeepPath d) = some gitkeepContent) ∧
    initialize_project (initialize_project fs) = initialize_project fs := by
  have hall : ∀ d ∈ empty_dirs,
      (empty_dirs.any fun d' => (pathPrefixes d').contains d) = true := by decide
  refine ⟨fun d hd => ⟨?_, ?_⟩, initialize_project_idem fs⟩
  · rw [initialize_project, foldl_gitkeep_dirs, hall d hd, Bool.true_or]
  · rw [initialize_project, foldl_gitkeep_files,
      if_pos (List.mem_map_of_mem gitkeepPath hd)]

/-- C3, exercised on the empty filesystem and `../backend/artifacts`. -/
theorem C3_provisioning_creates_and_is_idempotent_witness :
    (initialize_project emptyFS).dirs "../backend/artifacts" = true ∧
    (initialize_project emptyFS).files (gitkeepPath "../backend/artifacts") =
      some gitkeepContent ∧
    initialize_project (initialize_project emptyFS) = initialize_project emptyFS :=
  have h := C3_provisioning_creates_and_is_idempotent emptyFS
  ⟨(h.1 "../backend/artifacts" (by decide)).1,
   (h.1 "../backend/artifacts" (by decide)).2, h.2⟩

end MultiagentBoilerplate

namespace MultiagentBoilerplate

/-- C4: `create_venv` targets `Path(venv_name).expanduser().resolve()`; on a
non-zero exit of `python -m venv` it prints the error to standard output and
returns `None`; the sequencer then prints the venv-failed warning and still
ends the run with the banner — the failure is not fatal to the bootstrap. -/
theorem C4_create_venv_failure_is_nonfatal (env : PostEnv) (ctx : Ctx)
    (hflag : strLower ctx.create_virtualenv = "y")
    (hpy : pick_python_interpreter env ctx.python_version ≠ "")
    (hfail : env.venvExit (pick_python_interpreter env ctx.python_version)
      (venvTarget env ctx.venv_name) ≠ 0) :
    venvTarget env ctx.venv_name =
      resolvePath env.cwd (expandUser env.homeDir ctx.venv_name) ∧
    create_venv env (pick_python_interpreter env ctx.python_version)
        ctx.venv_name =
      (none,
       [.venvError (pick_python_interpreter env ctx.python_version)
         (env.venvExit (pick_python_interpreter env ctx.python_version)
           (venvTarget env ctx.venv_name))]) ∧
    postGenMain env ctx =
      ([.initOut env.cwd,
        .venvError (pick_python_interpreter env ctx.python_version)
          (env.venvExit (pick_python_interpreter env ctx.python_version)
            (venvTarget env ctx.venv_name)),
        .venvFailedWarn, .banner], none) := by
  refine ⟨rfl, by simp [create_venv, hfail], ?_⟩
  rcases postGenMain_cases env ctx with ⟨h, _⟩ | ⟨_, h, _⟩ | ⟨_, _, h, _⟩ |
    ⟨_, _, _, heq⟩
  · exact absurd hflag h
  · exact absurd h hpy
  · exact absurd h hfail
  · exact heq

/-- C4, exercised: venv creation fails with exit code 1 on `envNoPython`;
the run still prints the error, the warning and finally the banner. -/
theorem C4_create_venv_failure_is_nonfatal_witness :
    postGenMain envNoPython ctxY =
      ([.initOut "/work/myproject",
        .venvError "/usr/bin/python3" 1, .venvFailedWarn, .banner], none) :=
  (C4_create_venv_failure_is_nonfatal envNoPython ctxY (by decide) (by decide)
    (by decide)).2.2

/-- C6: on a host where `sys.executable` and every search-path lookup result
are non-empty strings, every run of the sequencer prints the banner, prints
it last, and does so whatever the template flag, the discovered interpreter
and the venv exit code are. -/
theorem C6_banner_always_last (env : PostEnv) (ctx : Ctx)
    (hsys : env.sysExecutable ≠ "")
    (hwhich : ∀ c exe, env.which c = some exe → exe ≠ "") :
    (postGenMain env ctx).1.getLast? = some .banner ∧
    Ev.banner ∉ (postGenMain env ctx).1.dropLast := by
  rcases postGenMain_cases env ctx with ⟨_, heq⟩ | ⟨_, h, _⟩ | ⟨_, _, _, heq⟩ |
    ⟨_, _, _, heq⟩
  · rw [heq]; exact ⟨rfl, by simp⟩
  · exact absurd h (pick_python_interpreter_ne_empty env hsys hwhich
      ctx.python_version)
  · rw [heq]; exact ⟨rfl, by simp⟩
  · rw [heq]; exact ⟨rfl, by simp⟩

/-- C6, exercised on `envNoPython` (venv creation fails, banner still
closes the run). -/
theorem C6_banner_always_last_witness :
    (postGenMain envNoPython ctxY).1.getLast? = some Ev.banner ∧
    Ev.banner ∉ (postGenMain envNoPython ctxY).1.dropLast :=
  C6_banner_always_last envNoPython ctxY (by decide)
    (by intro c exe h; simp [envNoPython] at h)

/-- C7: activation guidance appears in a run's output exactly when a venv
was created, and for the created path; the printed activate/pip/python
paths live under `Scripts` (with `\`) when `os.name == "nt"` and under
`bin` (with `/`) on every other OS. -/
theorem C7_activation_help_iff_created (env : PostEnv) (ctx : Ctx) :
    (∀ p, Ev.activationHelp env.osName p ∈ (postGenMain env ctx).1 ↔
      (postGenMain env ctx).2 = some p) ∧
    (∀ p, env.osName = "nt" →
      render (Ev.activationHelp env.osName p) =
        ["\n[cookiecutter] Virtual environment created.",
         "  " ++ (p ++ "\\" ++ "Scripts" ++ "\\" ++ "activate"),
         "Pip:      " ++ (p ++ "\\" ++ "Scripts" ++ "\\" ++ "pip"),
         "Python:   " ++ (p ++ "\\" ++ "Scripts" ++ "\\" ++ "python") ++ "\n"]) ∧
    (∀ p, env.osName ≠ "nt" →
      render (Ev.activationHelp env.osName p) =
        ["\n[cookiecutter] Virtual environment created.",
         "Activate:\n  source " ++ (p ++ "/" ++ "bin" ++ "/" ++ "activate"),
         "Pip:      " ++ (p ++ "/" ++ "bin" ++ "/" ++ "pip"),
         "Python:   " ++ (p ++ "/" ++ "bin" ++ "/" ++ "python") ++ "\n"]) := by
  refine ⟨?_, ?_, ?_⟩
  · intro p
    rcases postGenMain_cases env ctx with ⟨_, heq⟩ | ⟨_, _, heq⟩ |
      ⟨_, _, _, heq⟩ | ⟨_, _, _, heq⟩ <;> rw [heq] <;> simp [eq_comm]
  · intro p h; simp [render, pathSep, venvBinDir, h]
  · intro p h; simp [render, pathSep, venvBinDir, h]

/-- C7, exercised: on POSIX (`envVenvOk`) the venv is created at
`/work/myproject/.venv` and the guidance uses `bin/`. -/
theorem C7_activation_help_iff_created_witness :
    (Ev.activationHelp "posix" "/work/myproject/.venv" ∈
        (postGenMain envVenvOk ctxY).1 ↔
      (postGenMain envVenvOk ctxY).2 = some "/work/myproject/.venv") ∧
    render (Ev.activationHelp "posix" "/work/myproject/.venv") =
      ["\n[cookiecutter] Virtual environment created.",
       "Activate:\n  source " ++
         ("/work/myproject/.venv" ++ "/" ++ "bin" ++ "/" ++ "activate"),
       "Pip:      " ++ ("/work/myproject/.venv" ++ "/" ++ "bin" ++ "/" ++ "pip"),
       "Python:   " ++
         ("/work/myproject/.venv" ++ "/" ++ "bin" ++ "/" ++ "python") ++ "\n"] :=
  ⟨(C7_activation_help_iff_created envVenvOk ctxY).1 "/work/myproject/.venv",
   (C7_activation_help_iff_created envVenvOk ctxY).2.2 "/work/myproject/.venv"
     (by decide)⟩

/-- C8: a well-formed version string that differs from the running
interpreter's own `major.minor` makes the validator write the warning to
the error stream and terminate normally — the mismatch never aborts. -/
theorem C8_version_mismatch_warns_and_succeeds (python_version cur_ver : String)
    (hmatch : PY_VER_RE_match python_version = true)
    (hdiff : cur_ver ≠ python_version) :
    pre_gen_project python_version cur_ver =
      .ok [preGenWarning cur_ver python_version] := by
  simp [pre_gen_project, hmatch, hdiff]

/-- C8, exercised: requesting `"9.9"` on a `"3.12"` interpreter warns and
succeeds. -/
theorem C8_version_mismatch_warns_and_succeeds_witness :
    pre_gen_project "9.9" "3.12" = .ok [preGenWarning "3.12" "9.9"] :=
  C8_version_mismatch_warns_and_succeeds "9.9" "3.12" (by decide) (by decide)

/-- C9: under the same host assumptions as C6, `pick_python_interpreter`
never returns a falsy (empty) string, so the branch that warns
`Could not find a Python interpreter`, exits with code 0 and skips both
venv creation and the banner is unreachable: its warning never appears and
the banner always does. -/
theorem C9_could_not_find_branch_unreachable (env : PostEnv) (ctx : Ctx)
    (hsys : env.sysExecutable ≠ "")
    (hwhich : ∀ c exe, env.which c = some exe → exe ≠ "") :
    pick_python_interpreter env ctx.python_version ≠ "" ∧
    Ev.couldNotFind ∉ (postGenMain env ctx).1 ∧
    Ev.banner ∈ (postGenMain env ctx).1 := by
  have hne := pick_python_interpreter_ne_empty env hsys hwhich ctx.python_version
  refine ⟨hne, ?_, ?_⟩ <;>
    rcases postGenMain_cases env ctx with ⟨_, heq⟩ | ⟨_, h, _⟩ |
      ⟨_, _, _, heq⟩ | ⟨_, _, _, heq⟩
  · rw [heq]; simp
  · exact absurd h hne
  · rw [heq]; simp
  · rw [heq]; simp
  · rw [heq]; simp
  · exact absurd h hne
  · rw [heq]; simp
  · rw [heq]; simp

/-- C9, exercised: on `envNoPython` the fallback is taken, the
`Could not find` warning is absent and the banner is printed. -/
theorem C9_could_not_find_branch_unreachable_witness :
    pick_python_interpreter envNoPython ctxY.python_version ≠ "" ∧
    Ev.couldNotFind ∉ (postGenMain envNoPython ctxY).1 ∧
    Ev.banner ∈ (postGenMain envNoPython ctxY).1 :=
  C9_could_not_find_branch_unreachable envNoPython ctxY (by decide)
    (by intro c exe h; simp [envNoPython] at h)

/-- C5: the claim fails on the code.  `export_env_variables` runs
`set -a && source .env && set +a` in a *child* bash process
(`subprocess.run`), so the hook process's own environment (`os.environ`)
is unchanged in every outcome, whatever key=value lines `.env` contains;
only the absence half of the claim holds (a missing `.env` is non-fatal
and merely logged).  The `__main__` block, moreover, never calls this
function. -/
theorem C5_export_env_leaves_environ_unchanged :
    (∀ (dotenvExists : Bool) (dotenvLines : List (String × String))
        (childExit : Nat) (st : ProcState),
      (export_env_variables dotenvExists dotenvLines childExit st).toOption.map
          Prod.fst =
        if dotenvExists = true ∧ childExit ≠ 0 then none else some st) ∧
    export_env_variables true [("FOO", "bar")] 0 ⟨[]⟩ =
      .ok (⟨[]⟩,
        ["🔄 Exporting environment variables from .env file...",
         "✅ Environment variables exported successfully!"]) ∧
    export_env_variables false [] 0 ⟨[]⟩ =
      .ok (⟨[]⟩,
        ["⚠️ .env file not found. Please create one to set environment variables."]) := by
  refine ⟨?_, rfl, rfl⟩
  intro e l c st
  by_cases he : e = true <;> by_cases hc : c = 0 <;>
    simp [export_env_variables, he, hc, Except.toOption]

/-- C10: the `start_agent` route returns the success payload for every
agent name, without validating it against the hardcoded `list_agents`
payload and without any error status: in particular it succeeds for
`"rogue_agent"`, which is not a listed agent. -/
theorem C10_start_agent_always_succeeds (agent_name : String) :
    start_agent agent_name =
      { message := "Agent " ++ agent_name ++ " started", status := "success" } ∧
    (start_agent agent_name).status = "success" ∧
    "rogue_agent" ∉ list_agents ∧
    (start_agent "rogue_agent").status = "success" :=
  ⟨rfl, rfl, by decide, rfl⟩

end MultiagentBoilerplate
